import Mathlib

/-!
Shallow embedding of the Steve single-position options-trading bot
(`THISONE_REFACTORED_FINAL_BOT.py`, `ScalpingTunedBot.py`,
`Peyton_Testing_RegimeSwitching.py`).  Prices and percentages are modelled
as rationals; the Python expression `round(x, 2)` is modelled as exact half-up
rounding to two decimals (no claim below exercises an exact .005 tie, where
the banker rounding of Python would differ).
-/

namespace Steve

/-- `round(x, 2)`: rounding to two decimal places, ties away from zero
approximated as half-up. -/
def round2 (q : ℚ) : ℚ := (⌊q * 100 + 1/2⌋ : ℚ) / 100

/-- The per-regime profit-target tuple `active_profit_targets`
(keys `target_1`, `target_2`, `tightened_stop`). -/
structure ProfitTargets where
  target_1 : ℚ
  target_2 : ℚ
  tightened_stop : ℚ
  deriving Repr, DecidableEq

/-- Market regime, stored as `active_regime` ("TREND" / "REVERSION"). -/
inductive Regime where
  | TREND
  | REVERSION
  deriving Repr, DecidableEq

/-- `active_profit_targets` as built in `THISONE_REFACTORED_FINAL_BOT.py`
from `strategy_config` (lines 461-468 for entry, 567-570 for recovery):
TREND uses `TREND_PROFIT_TARGET_1 = 25.0`, `TREND_PROFIT_TARGET_2 = 50.0`,
`TREND_TIGHTENED_STOP = 8.0`; REVERSION uses `15.0`, `30.0`, `5.0`. -/
def activeProfitTargets : Regime → ProfitTargets
  | Regime.TREND => ⟨25, 50, 8⟩
  | Regime.REVERSION => ⟨15, 30, 5⟩

/-- Initial trailing percent chosen in `THISONE_REFACTORED_FINAL_BOT.py`:
`LOW_VIX_TRAILING_STOP = 10.0` for TREND, `HIGH_VIX_TRAILING_STOP = 20.0`
for REVERSION. -/
def initialTrailingPercent : Regime → ℚ
  | Regime.TREND => 10
  | Regime.REVERSION => 20

/-- The in-memory monitoring state of `monitor_position_with_trailing`
(both `THISONE_REFACTORED_FINAL_BOT.py` and `ScalpingTunedBot.py` keep
exactly these mutable variables plus the fixed `entry_price`). -/
structure MonitorState where
  entry_price : ℚ
  highest_price : ℚ
  trailing_percent : ℚ
  breakeven_activated : Bool
  profit_lock_activated : Bool
  deriving Repr, DecidableEq

/-- Result of the state-update section of one monitoring tick:
the updated state and the `state_changed` flag that triggers
`save_trade_state`. -/
structure TickUpdate where
  state : MonitorState
  persisted : Bool
  deriving Repr, DecidableEq

/-- The state-mutation part of one tick of `monitor_position_with_trailing`
(`THISONE_REFACTORED_FINAL_BOT.py` lines 371-393; identical in
`ScalpingTunedBot.py` lines 393-415), given the already-rounded positive
`current_price`:
update `highest_price`, compute `current_gain_percent`, arm
`breakeven_activated` at `target_1`, arm `profit_lock_activated` (forcing
`breakeven_activated` and tightening `trailing_percent`) at `target_2`,
and persist iff anything changed. -/
def updateOnPrice (t : ProfitTargets) (s : MonitorState) (current_price : ℚ) :
    TickUpdate :=
  let highest := if s.highest_price < current_price then current_price
                 else s.highest_price
  let gain := ((current_price - s.entry_price) / s.entry_price) * 100
  let breakeven1 := if s.breakeven_activated = false ∧ gain ≥ t.target_1
                    then true else s.breakeven_activated
  let profitLock := if s.profit_lock_activated = false ∧ gain ≥ t.target_2
                    then true else s.profit_lock_activated
  let breakeven2 := if s.profit_lock_activated = false ∧ gain ≥ t.target_2
                    then true else breakeven1
  let trailing := if s.profit_lock_activated = false ∧ gain ≥ t.target_2
                  then t.tightened_stop else s.trailing_percent
  { state :=
      { entry_price := s.entry_price
        highest_price := highest
        trailing_percent := trailing
        breakeven_activated := breakeven2
        profit_lock_activated := profitLock }
    persisted := if s.highest_price < current_price
                    ∨ (s.breakeven_activated = false ∧ gain ≥ t.target_1)
                    ∨ (s.profit_lock_activated = false ∧ gain ≥ t.target_2)
                 then true else false }

/-- `trailing_stop_price = highest_price * (1 - current_trailing_percent / 100)`. -/
def trailingStopPrice (s : MonitorState) : ℚ :=
  s.highest_price * (1 - s.trailing_percent / 100)

/-- `final_stop_price` of `THISONE_REFACTORED_FINAL_BOT.py` line 396-397:
`max(trailing_stop_price, entry_price) if breakeven_activated else
trailing_stop_price`, then rounded to 2 decimals.  Note the breakeven floor
is the bare `entry_price` — this variant has no cost buffer. -/
def finalStopPrice (s : MonitorState) : ℚ :=
  round2 (if s.breakeven_activated then max (trailingStopPrice s) s.entry_price
          else trailingStopPrice s)

/-- `final_stop_price` of `ScalpingTunedBot.py` lines 417-424: when
`breakeven_activated`, the floor is
`entry_price * (1 + BREAKEVEN_COST_BUFFER_PERCENT / 100)`. -/
def finalStopPriceScalp (bufferPercent : ℚ) (s : MonitorState) : ℚ :=
  round2 (if s.breakeven_activated then
            let cost_buffer := 1 + bufferPercent / 100
            let breakeven_plus_price := s.entry_price * cost_buffer
            max (trailingStopPrice s) breakeven_plus_price
          else trailingStopPrice s)

/-- `BREAKEVEN_COST_BUFFER_PERCENT = 0.5` in `ScalpingTunedBot.py`
`strategy_config` (line 97). -/
def BREAKEVEN_COST_BUFFER_PERCENT : ℚ := 1/2

/-- What one iteration of the `while True` monitoring loop of
`THISONE_REFACTORED_FINAL_BOT.py` does with control flow. -/
inductive TickAction where
  /-- `if not is_market_open(): break` — leave the loop, nothing else. -/
  | exitMarketClosed
  /-- invalid `entry_price`: critical email, `break`. -/
  | abortInvalidEntry
  /-- no snapshot / invalid price: `continue`, no state mutation. -/
  | skipTick
  /-- `current_price <= final_stop_price`: call `close_position`, `break`. -/
  | closeStop
  /-- sleep and poll again. -/
  | keepMonitoring
  deriving Repr, DecidableEq

/-- Whether the control-flow outcome of a tick invokes `close_position`
in `THISONE_REFACTORED_FINAL_BOT.py` (only the stop-hit branch does;
the market-closed branch is a bare `break`). -/
def invokesCloser : TickAction → Bool
  | TickAction.closeStop => true
  | _ => false

/-- Outcome of one full tick: control-flow action, resulting state, and
whether `save_trade_state` ran. -/
structure TickStep where
  action : TickAction
  state : MonitorState
  persisted : Bool
  deriving Repr, DecidableEq

/-- One iteration of the monitoring loop of
`THISONE_REFACTORED_FINAL_BOT.py` (lines 355-409).  `marketOpen` is the
market clock, `rawPrice?` is the snapshot price (`none` when the ticker is
missing or has no valid data). -/
def monitorTick (marketOpen : Bool) (t : ProfitTargets) (s : MonitorState)
    (rawPrice? : Option ℚ) : TickStep :=
  if marketOpen = false then ⟨TickAction.exitMarketClosed, s, false⟩
  else if s.entry_price ≤ 0 then ⟨TickAction.abortInvalidEntry, s, false⟩
  else
    match rawPrice? with
    | none => ⟨TickAction.skipTick, s, false⟩
    | some rawPrice =>
      let current_price := round2 rawPrice
      if current_price ≤ 0 then ⟨TickAction.skipTick, s, false⟩
      else
        let u := updateOnPrice t s current_price
        if current_price ≤ finalStopPrice u.state then
          ⟨TickAction.closeStop, u.state, u.persisted⟩
        else ⟨TickAction.keepMonitoring, u.state, u.persisted⟩

/-- Control-flow outcome of one iteration of the simpler monitoring loop of
`Peyton_Testing_RegimeSwitching.py` (lines 300-345). -/
inductive RSTickAction where
  /-- market closed: `close_position` is invoked, then `break` (EOD flatten). -/
  | closeEndOfDay
  /-- snapshot missing or price invalid: sleep and retry. -/
  | skipTick
  /-- trailing stop hit: `close_position`, `break`. -/
  | closeStop
  /-- sleep and poll again. -/
  | keepMonitoring
  deriving Repr, DecidableEq

/-- Whether the Peyton_Testing_RegimeSwitching tick outcome invokes
`close_position` (both close branches do). -/
def rsInvokesCloser : RSTickAction → Bool
  | RSTickAction.closeEndOfDay => true
  | RSTickAction.closeStop => true
  | _ => false

/-- One iteration of the monitoring loop of
`Peyton_Testing_RegimeSwitching.py` (`monitor_position_with_trailing`,
lines 294-345): a plain trailing stop, no breakeven/profit-lock flags; on a
market-closed tick it closes the position before breaking. -/
def monitorTickRS (marketOpen : Bool) (trailing highest : ℚ)
    (rawPrice? : Option ℚ) : RSTickAction × ℚ :=
  if marketOpen = false then (RSTickAction.closeEndOfDay, highest)
  else
    match rawPrice? with
    | none => (RSTickAction.skipTick, highest)
    | some rawPrice =>
      let current_price := round2 rawPrice
      if current_price ≤ 0 then (RSTickAction.skipTick, highest)
      else
        let highest1 := if current_price > highest then current_price
                        else highest
        let stop_price := round2 (highest1 * (1 - trailing / 100))
        if current_price ≤ stop_price then (RSTickAction.closeStop, highest1)
        else (RSTickAction.keepMonitoring, highest1)

/-! ## Position Closer (`close_position`, THISONE_REFACTORED_FINAL_BOT.py
lines 284-328) -/

/-- One entry of the broker `ib.positions()` list: contract id and signed
quantity. -/
structure BrokerPosition where
  conId : Int
  position : Int
  deriving Repr, DecidableEq

/-- Order side of the closing market order. -/
inductive OrderAction where
  | SELL
  | BUY
  deriving Repr, DecidableEq

/-- `trade.orderStatus.status` as observed after
`wait_for_trade_completion` returns (either the order filled within the
60-second wait or it did not). -/
inductive OrderStatus where
  | Filled
  | NotFilled
  deriving Repr, DecidableEq

/-- Emails sent by `close_position` via `send_email`. -/
inductive CloseEmail where
  /-- "Position Closed - ..." (informational). -/
  | positionClosed
  /-- "Close Error - ..." (alarming: failed to confirm the close). -/
  | closeError
  deriving Repr, DecidableEq

/-- Log records emitted by `close_position`, by severity/meaning. -/
inductive CloseLog where
  /-- `logging.warning`: IB not connected. -/
  | warnNotConnected
  /-- `logging.info`: order placed to close. -/
  | infoOrderPlaced
  /-- `logging.info`: position closed. -/
  | infoClosed
  /-- `logging.error`: failed to confirm close. -/
  | errorCloseFailed
  /-- `logging.info`: position no longer found, assuming it was closed. -/
  | infoAssumedClosed
  deriving Repr, DecidableEq

/-- Everything observable about one `close_position` call: the market order
it placed (if any), the emails and logs it emitted, whether it called
`clear_trade_state`, and its boolean return value. -/
structure CloseResult where
  orderPlaced : Option (OrderAction × Int)
  emails : List CloseEmail
  logs : List CloseLog
  clearedState : Bool
  returns : Bool
  deriving Repr, DecidableEq

/-- `close_position(contract)` of `THISONE_REFACTORED_FINAL_BOT.py`
(lines 284-328).  `positionsStart` is the `ib.positions()` list read at the
top, `positionsEnd` the list re-read for the `final_position_exists` check;
`status` is the order status after `wait_for_trade_completion` (only
consulted if an order was actually placed, i.e. a matching position was
found).  The Python `for` loop acts on the first entry whose `conId`
matches and `break`s in both branches, so it is the first match or
nothing. -/
def close_position (connected : Bool) (conId : Int)
    (positionsStart positionsEnd : List BrokerPosition)
    (status : OrderStatus) : CloseResult :=
  if connected = false then
    { orderPlaced := none, emails := [], logs := [CloseLog.warnNotConnected]
      clearedState := false, returns := false }
  else
    let step1 : Option (OrderAction × Int) × List CloseEmail × List CloseLog × Bool :=
      match positionsStart.find? (fun p => p.conId == conId) with
      | none => (none, [], [], false)
      | some pos =>
        let qty_to_close := pos.position.natAbs
        let action := if pos.position > 0 then OrderAction.SELL
                      else OrderAction.BUY
        match status with
        | OrderStatus.Filled =>
          (some (action, (qty_to_close : Int)),
           [CloseEmail.positionClosed],
           [CloseLog.infoOrderPlaced, CloseLog.infoClosed], true)
        | OrderStatus.NotFilled =>
          (some (action, (qty_to_close : Int)),
           [CloseEmail.closeError],
           [CloseLog.infoOrderPlaced, CloseLog.errorCloseFailed], false)
    let orderPlaced := step1.1
    let emails := step1.2.1
    let logs := step1.2.2.1
    let position_closed := step1.2.2.2
    let final_position_exists :=
      positionsEnd.any (fun p => p.conId == conId && p.position != 0)
    let step2 : List CloseLog × Bool :=
      if final_position_exists = false ∧ position_closed = false then
        (logs ++ [CloseLog.infoAssumedClosed], true)
      else (logs, position_closed)
    let logs2 := step2.1
    let position_closed2 := step2.2
    { orderPlaced := orderPlaced, emails := emails, logs := logs2
      clearedState := position_closed2, returns := position_closed2 }

/-! ## State Store (`load_trade_state`, THISONE_REFACTORED_FINAL_BOT.py
lines 120-137) -/

/-- The contract dictionary saved in the state file
(`save_trade_state`, lines 94-103). -/
structure StoredContract where
  conId : Int
  symbol : String
  lastTradeDateOrContractMonth : String
  strike : ℚ
  right : String
  exchange : String
  currency : String
  localSymbol : String
  deriving Repr, DecidableEq

/-- A successfully JSON-decoded state record.  The three fields read with
`.get(..., default)` in `load_trade_state` are `Option`s, since older state
files may lack them. -/
structure StoredState where
  is_position_open : Bool
  contract : StoredContract
  entry_price : ℚ
  quantity : Int
  highest_price : ℚ
  trailing_percent : ℚ
  active_regime : Option String
  breakeven_activated : Option Bool
  profit_lock_activated : Option Bool
  deriving Repr, DecidableEq

/-- What the state-file read can encounter: file missing, an `IOError`
while reading, invalid JSON (`json.JSONDecodeError`), or a decoded
record. -/
inductive FileState where
  | missing
  | ioError
  | badJson
  | content (s : StoredState)
  deriving Repr, DecidableEq

/-- What `load_trade_state` returns: the sentinel dict
`{"is_position_open": False}` or a (default-completed) record. -/
inductive LoadResult where
  | flat
  | record (s : StoredState)
  deriving Repr, DecidableEq

/-- The `is_position_open` the caller observes via
`trade_state.get("is_position_open")`. -/
def LoadResult.isOpen : LoadResult → Bool
  | LoadResult.flat => false
  | LoadResult.record s => s.is_position_open

/-- `load_trade_state()` of `THISONE_REFACTORED_FINAL_BOT.py` lines
120-137: missing file returns the sentinel; a decoded record with
`is_position_open` truthy gets `breakeven_activated` and
`profit_lock_activated` defaulted to `False` and `active_regime` defaulted
to `"TREND"`; `json.JSONDecodeError` and `IOError` are caught and yield the
sentinel. -/
def load_trade_state : FileState → LoadResult
  | FileState.missing => LoadResult.flat
  | FileState.ioError => LoadResult.flat
  | FileState.badJson => LoadResult.flat
  | FileState.content s =>
    if s.is_position_open then
      LoadResult.record
        { s with
          breakeven_activated := some (s.breakeven_activated.getD false)
          profit_lock_activated := some (s.profit_lock_activated.getD false)
          active_regime := some (s.active_regime.getD "TREND") }
    else LoadResult.record s

/-! ## Recovery branch of the main loop (THISONE_REFACTORED_FINAL_BOT.py
lines 557-583) -/

/-- Observable outcome of the recovery branch for one main-loop iteration
with a persisted open position. -/
structure RecoveryOutcome where
  /-- "Bot Recovery Failure" email sent. -/
  criticalAlertSent : Bool
  /-- `clear_trade_state()` called. -/
  stateCleared : Bool
  /-- number of `monitor_position_with_trailing` calls made this iteration. -/
  monitorInvocations : Nat
  /-- the profit targets the monitor would be handed, rebuilt from
  `active_regime` (lines 567-570). -/
  targets : ProfitTargets
  deriving Repr, DecidableEq

/-- The recovery branch of the main loop
(`THISONE_REFACTORED_FINAL_BOT.py` lines 559-583), entered when
`trade_state.get("is_position_open")` is true: rebuild profit targets from
the persisted regime, then `ib.qualifyContracts(contract)`; if
qualification fails (empty result) send the "Bot Recovery Failure" email,
clear state and `continue` without monitoring; otherwise invoke the
monitor once. -/
def recoveryStep (regime : Regime) (qualifySucceeds : Bool) :
    RecoveryOutcome :=
  let targets := activeProfitTargets regime
  if qualifySucceeds = false then
    { criticalAlertSent := true, stateCleared := true
      monitorInvocations := 0, targets := targets }
  else
    { criticalAlertSent := false, stateCleared := false
      monitorInvocations := 1, targets := targets }

/-- A sample legacy state record (written before the breakeven/profit-lock
flags and the regime field existed) used to exercise `load_trade_state`. -/
def legacyStoredState : StoredState where
  is_position_open := true
  contract := ⟨1, "SPY", "20250620", 500, "C", "SMART", "USD", "SPY 250620C00500000"⟩
  entry_price := 2
  quantity := 1
  highest_price := 2
  trailing_percent := 10
  active_regime := none
  breakeven_activated := none
  profit_lock_activated := none

/-! ## Iterated monitoring (for lifetime invariants) -/

/-- Fold of the state-mutation part of the monitor over a list of
(already-rounded, positive) tick prices.  This over-approximates a real
monitoring run: the real loop may stop early (stop hit, market close), so
every reachable persisted state is a prefix-fold of this form. -/
def runTicks (t : ProfitTargets) (s : MonitorState) : List ℚ → MonitorState
  | [] => s
  | p :: ps => runTicks t (updateOnPrice t s p).state ps

/-- Number of ticks in the run at which `trailing_percent` changes. -/
def countTrailingChanges (t : ProfitTargets) (s : MonitorState) :
    List ℚ → Nat
  | [] => 0
  | p :: ps =>
    let s' := (updateOnPrice t s p).state
    (if s'.trailing_percent ≠ s.trailing_percent then 1 else 0)
      + countTrailingChanges t s' ps

end Steve

/-! ## Helper lemmas on the tick step -/

namespace Steve

lemma updateOnPrice_trailing (t : ProfitTargets) (s : MonitorState) (p : ℚ) :
    (updateOnPrice t s p).state.trailing_percent = s.trailing_percent ∨
    (updateOnPrice t s p).state.trailing_percent = t.tightened_stop := by
  unfold updateOnPrice
  dsimp only
  split_ifs <;> simp

lemma updateOnPrice_plock_true (t : ProfitTargets) (s : MonitorState) (p : ℚ)
    (h : s.profit_lock_activated = true) :
    (updateOnPrice t s p).state.profit_lock_activated = true ∧
    (updateOnPrice t s p).state.trailing_percent = s.trailing_percent := by
  unfold updateOnPrice
  dsimp only
  split_ifs <;> simp_all

lemma updateOnPrice_trailing_change (t : ProfitTargets) (s : MonitorState)
    (p : ℚ)
    (h : (updateOnPrice t s p).state.trailing_percent ≠ s.trailing_percent) :
    (updateOnPrice t s p).state.profit_lock_activated = true := by
  unfold updateOnPrice at *
  dsimp only at *
  split_ifs at * <;> simp_all

lemma updateOnPrice_flag_inv (t : ProfitTargets) (s : MonitorState) (p : ℚ)
    (h : s.profit_lock_activated = true → s.breakeven_activated = true) :
    (updateOnPrice t s p).state.profit_lock_activated = true →
      (updateOnPrice t s p).state.breakeven_activated = true := by
  unfold updateOnPrice
  dsimp only
  split_ifs <;> simp_all

lemma runTicks_plock_true (t : ProfitTargets) (s : MonitorState) (ps : List ℚ)
    (h : s.profit_lock_activated = true) :
    countTrailingChanges t s ps = 0 ∧
    (runTicks t s ps).trailing_percent = s.trailing_percent := by
  induction ps generalizing s with
  | nil => simp [countTrailingChanges, runTicks]
  | cons p ps ih =>
    obtain ⟨h1, h2⟩ := updateOnPrice_plock_true t s p h
    obtain ⟨h3, h4⟩ := ih _ h1
    refine ⟨?_, ?_⟩
    · simp [countTrailingChanges, h2, h3]
    · rw [runTicks, h4, h2]

lemma countTrailingChanges_le_one (t : ProfitTargets) (s : MonitorState)
    (ps : List ℚ) : countTrailingChanges t s ps ≤ 1 := by
  induction ps generalizing s with
  | nil => simp [countTrailingChanges]
  | cons p ps ih =>
    by_cases hch : (updateOnPrice t s p).state.trailing_percent = s.trailing_percent
    · simp [countTrailingChanges, hch]
      exact ih _
    · have hpl := updateOnPrice_trailing_change t s p hch
      have h0 := (runTicks_plock_true t _ ps hpl).1
      simp [countTrailingChanges, hch, h0]

lemma runTicks_trailing (t : ProfitTargets) (s : MonitorState) (ps : List ℚ) :
    (runTicks t s ps).trailing_percent = s.trailing_percent ∨
    (runTicks t s ps).trailing_percent = t.tightened_stop := by
  induction ps generalizing s with
  | nil => left; rfl
  | cons p ps ih =>
    rw [runTicks]
    rcases ih ((updateOnPrice t s p).state) with h | h
    · rcases updateOnPrice_trailing t s p with h2 | h2
      · left; rw [h, h2]
      · right; rw [h, h2]
    · right; exact h

/-! ## Claim theorems -/

/-- C1 (corrected), counterexample: in `THISONE_REFACTORED_FINAL_BOT.py`
a monitoring tick taken while the market clock reports closed does NOT
invoke the Position Closer: at a concrete state with the price (3.00) far
above any stop, the tick exits the monitoring loop via the bare `break`
of `if not is_market_open(): break` without calling `close_position`,
refuting the claim that the monitor transitions to CLOSING unconditionally
on a market-closed tick. -/
theorem market_closed_tick_skips_closer_in_final_bot :
    (monitorTick false (activeProfitTargets Regime.TREND)
        ⟨2, 3, 10, false, false⟩ (some 3)).action = TickAction.exitMarketClosed
    ∧ invokesCloser (monitorTick false (activeProfitTargets Regime.TREND)
        ⟨2, 3, 10, false, false⟩ (some 3)).action = false := by
  constructor <;> rfl

/-- C1 (corrected), amended claim: a market-closed tick forces a close only
in the `Peyton_Testing_RegimeSwitching.py` monitor, where it invokes
`close_position` unconditionally, regardless of price and of the current
stop; in the `THISONE_REFACTORED_FINAL_BOT.py` monitor a market-closed
tick exits the monitoring loop immediately without invoking the Closer,
leaving the position open overnight. -/
theorem market_closed_tick_closes_only_in_regime_switching_monitor :
    (∀ (trailing highest : ℚ) (rawPrice? : Option ℚ),
      (monitorTickRS false trailing highest rawPrice?).1
          = RSTickAction.closeEndOfDay
      ∧ rsInvokesCloser (monitorTickRS false trailing highest rawPrice?).1
          = true)
    ∧ (∀ (t : ProfitTargets) (s : MonitorState) (rawPrice? : Option ℚ),
      (monitorTick false t s rawPrice?).action = TickAction.exitMarketClosed
      ∧ invokesCloser (monitorTick false t s rawPrice?).action = false) := by
  constructor
  · intro trailing highest rawPrice?
    constructor <;> simp [monitorTickRS, rsInvokesCloser]
  · intro t s rawPrice?
    constructor <;> simp [monitorTick, invokesCloser]

/-- C2 (corrected), counterexample: in `THISONE_REFACTORED_FINAL_BOT.py`
(line 396) the breakeven floor is the bare `entry_price`, with no cost
buffer.  With `breakeven_activated = true`, `entry_price = 2.00`,
`highest_price = 2.00`, `trailing_percent = 10`, the computed
`final_stop_price` is 2.00, which differs from the claimed
`max(trailing_stop_price, entry_price * (1 + 0.5 / 100)) = 2.01` and is
strictly below `entry_price * (1 + buffer / 100)`. -/
theorem final_stop_lacks_cost_buffer_in_final_bot :
    finalStopPrice ⟨2, 2, 10, true, false⟩ = 2
    ∧ (2 : ℚ) * (1 + BREAKEVEN_COST_BUFFER_PERCENT / 100) = 201/100
    ∧ finalStopPrice ⟨2, 2, 10, true, false⟩
        ≠ round2 (max (trailingStopPrice ⟨2, 2, 10, true, false⟩)
            ((2 : ℚ) * (1 + BREAKEVEN_COST_BUFFER_PERCENT / 100)))
    ∧ finalStopPrice ⟨2, 2, 10, true, false⟩
        < (2 : ℚ) * (1 + BREAKEVEN_COST_BUFFER_PERCENT / 100) := by
  refine ⟨?_, ?_, ?_, ?_⟩ <;>
    norm_num [finalStopPrice, trailingStopPrice, round2,
      BREAKEVEN_COST_BUFFER_PERCENT]

/-- C2 (corrected), amended claim: whenever `breakeven_activated` is true,
`ScalpingTunedBot.py` computes `final_stop_price` as the 2-decimal rounding
of `max(trailing_stop_price, entry_price * (1 + buffer_percent / 100))`,
whose unrounded value is at least `entry_price * (1 + buffer / 100)`;
`THISONE_REFACTORED_FINAL_BOT.py` instead computes the rounding of
`max(trailing_stop_price, entry_price)` — the floor is the bare entry
price, so only `final_stop >= entry_price` holds there, not the
buffered bound. -/
theorem breakeven_final_stop_formula (bufferPercent : ℚ) (s : MonitorState)
    (h : s.breakeven_activated = true) :
    finalStopPriceScalp bufferPercent s
        = round2 (max (trailingStopPrice s)
            (s.entry_price * (1 + bufferPercent / 100)))
    ∧ s.entry_price * (1 + bufferPercent / 100)
        ≤ max (trailingStopPrice s) (s.entry_price * (1 + bufferPercent / 100))
    ∧ finalStopPrice s = round2 (max (trailingStopPrice s) s.entry_price)
    ∧ s.entry_price ≤ max (trailingStopPrice s) s.entry_price := by
  refine ⟨?_, le_max_right _ _, ?_, le_max_right _ _⟩
  · simp [finalStopPriceScalp, h]
  · simp [finalStopPrice, h]

/-- Witness for `breakeven_final_stop_formula` at a concrete
breakeven-active state with the 0.5 percent buffer. -/
theorem breakeven_final_stop_formula_witness :
    ((⟨2, 28/10, 5, true, true⟩ : MonitorState).breakeven_activated = true)
    ∧ finalStopPriceScalp (1/2) ⟨2, 28/10, 5, true, true⟩
        = round2 (max (trailingStopPrice ⟨2, 28/10, 5, true, true⟩)
            ((2 : ℚ) * (1 + (1/2) / 100))) :=
  ⟨rfl, (breakeven_final_stop_formula (1/2) ⟨2, 28/10, 5, true, true⟩ rfl).1⟩

/-- C3 (confirmed): the tick step of `monitor_position_with_trailing`
preserves the invariant `profit_lock_activated = true →
breakeven_activated = true` along any sequence of price ticks (the
target-2 branch sets both flags in memory before the single
`save_trade_state` call, and every persisted snapshot is exactly such a
post-update state; the entry-time snapshot has both flags false), so no
persisted record has `profit_lock_activated` without
`breakeven_activated`. -/
theorem persisted_profit_lock_implies_breakeven (t : ProfitTargets)
    (s : MonitorState) (ps : List ℚ)
    (h : s.profit_lock_activated = true → s.breakeven_activated = true) :
    (runTicks t s ps).profit_lock_activated = true →
      (runTicks t s ps).breakeven_activated = true := by
  induction ps generalizing s with
  | nil => exact h
  | cons p ps ih => exact ih _ (updateOnPrice_flag_inv t s p h)

/-- Witness for `persisted_profit_lock_implies_breakeven` from the
entry-time state (both flags false) over a tick that arms both flags. -/
theorem persisted_profit_lock_implies_breakeven_witness :
    ((⟨2, 2, 10, false, false⟩ : MonitorState).profit_lock_activated = true →
      (⟨2, 2, 10, false, false⟩ : MonitorState).breakeven_activated = true)
    ∧ ((runTicks ⟨25, 50, 8⟩ ⟨2, 2, 10, false, false⟩ [3]).profit_lock_activated
          = true →
        (runTicks ⟨25, 50, 8⟩ ⟨2, 2, 10, false, false⟩ [3]).breakeven_activated
          = true) :=
  ⟨by simp,
   persisted_profit_lock_implies_breakeven ⟨25, 50, 8⟩ ⟨2, 2, 10, false, false⟩
     [3] (by simp)⟩

/-- C4 (confirmed), Scenario B: from `entry_price = 2.00`,
`highest_price = 2.40`, `trailing_percent = 10`, `breakeven_activated`,
targets (20, 40, tightened 5), the tick at 2.80 (gain 40 percent) sets
`profit_lock_activated = true` and `trailing_percent = 5` and yields
`final_stop_price = 2.66` (the tick itself keeps monitoring since
2.80 > 2.66), and the next tick at 2.60 <= 2.66 hits the stop and invokes
the Position Closer (transition to CLOSING). -/
theorem scenario_b_profit_lock_and_close :
    (updateOnPrice ⟨20, 40, 5⟩ ⟨2, 12/5, 10, true, false⟩ (28/10)).state
        = ⟨2, 28/10, 5, true, true⟩
    ∧ finalStopPrice ⟨2, 28/10, 5, true, true⟩ = 266/100
    ∧ (monitorTick true ⟨20, 40, 5⟩ ⟨2, 12/5, 10, true, false⟩
        (some (28/10))).action = TickAction.keepMonitoring
    ∧ (monitorTick true ⟨20, 40, 5⟩ ⟨2, 28/10, 5, true, true⟩
        (some (26/10))).action = TickAction.closeStop
    ∧ invokesCloser TickAction.closeStop = true := by
  refine ⟨?_, ?_, ?_, ?_, rfl⟩
  · norm_num [updateOnPrice]
  · norm_num [finalStopPrice, trailingStopPrice, round2]
  · norm_num [monitorTick, updateOnPrice, finalStopPrice, trailingStopPrice,
      round2]
  · norm_num [monitorTick, updateOnPrice, finalStopPrice, trailingStopPrice,
      round2]

/-- C5 (confirmed): over any tick sequence, `trailing_percent` changes at
most once; its final value is either the initial value or
`tightened_stop`; whenever `tightened_stop <= trailing_percent` holds at
the start (as it does for both regime configurations of
`THISONE_REFACTORED_FINAL_BOT.py`: 8 <= 10 for TREND, 5 <= 20 for
REVERSION), `trailing_percent` is non-increasing. -/
theorem trailing_percent_non_increasing (t : ProfitTargets) (s : MonitorState)
    (ps : List ℚ) (h : t.tightened_stop ≤ s.trailing_percent) :
    countTrailingChanges t s ps ≤ 1
    ∧ (runTicks t s ps).trailing_percent ≤ s.trailing_percent
    ∧ ((runTicks t s ps).trailing_percent = s.trailing_percent
        ∨ (runTicks t s ps).trailing_percent = t.tightened_stop)
    ∧ (∀ r : Regime,
        (activeProfitTargets r).tightened_stop ≤ initialTrailingPercent r) := by
  refine ⟨countTrailingChanges_le_one t s ps, ?_, runTicks_trailing t s ps, ?_⟩
  · rcases runTicks_trailing t s ps with h2 | h2
    · rw [h2]
    · rw [h2]; exact h
  · intro r; cases r <;> norm_num [activeProfitTargets, initialTrailingPercent]

/-- Witness for `trailing_percent_non_increasing` with the TREND
configuration over a two-tick run. -/
theorem trailing_percent_non_increasing_witness :
    ((⟨25, 50, 8⟩ : ProfitTargets).tightened_stop
        ≤ (⟨2, 2, 10, false, false⟩ : MonitorState).trailing_percent)
    ∧ countTrailingChanges ⟨25, 50, 8⟩ ⟨2, 2, 10, false, false⟩ [3, 1] ≤ 1
    ∧ (runTicks ⟨25, 50, 8⟩ ⟨2, 2, 10, false, false⟩ [3, 1]).trailing_percent
        ≤ (⟨2, 2, 10, false, false⟩ : MonitorState).trailing_percent :=
  ⟨by norm_num,
   (trailing_percent_non_increasing ⟨25, 50, 8⟩ ⟨2, 2, 10, false, false⟩ [3, 1]
      (by norm_num)).1,
   (trailing_percent_non_increasing ⟨25, 50, 8⟩ ⟨2, 2, 10, false, false⟩ [3, 1]
      (by norm_num)).2.1⟩

/-- C6 (confirmed): when `close_position` finds a matching broker position,
places the closing order, and the order is not confirmed `Filled` within
the 60-second `wait_for_trade_completion` while the broker still reports
the position, it sends the alarming "Close Error" email, returns `False`,
and does not call `clear_trade_state` (persisted state untouched). -/
theorem close_unfilled_retains_state (conId : Int)
    (pStart pEnd : List BrokerPosition) (pos : BrokerPosition)
    (hfind : pStart.find? (fun p => p.conId == conId) = some pos)
    (hstill : pEnd.any (fun p => p.conId == conId && p.position != 0) = true) :
    (close_position true conId pStart pEnd OrderStatus.NotFilled).returns
        = false
    ∧ (close_position true conId pStart pEnd OrderStatus.NotFilled).clearedState
        = false
    ∧ CloseEmail.closeError
        ∈ (close_position true conId pStart pEnd OrderStatus.NotFilled).emails
    ∧ (close_position true conId pStart pEnd OrderStatus.NotFilled).orderPlaced
        ≠ none := by
  simp [close_position, hfind, hstill]

/-- Witness for `close_unfilled_retains_state`: one long position of 2
contracts, unfilled close, position still reported. -/
theorem close_unfilled_retains_state_witness :
    ([⟨1, 2⟩] : List BrokerPosition).find? (fun p => p.conId == 1)
        = some ⟨1, 2⟩
    ∧ ([⟨1, 2⟩] : List BrokerPosition).any
        (fun p => p.conId == 1 && p.position != 0) = true
    ∧ (close_position true 1 [⟨1, 2⟩] [⟨1, 2⟩] OrderStatus.NotFilled).returns
        = false
    ∧ (close_position true 1 [⟨1, 2⟩] [⟨1, 2⟩]
        OrderStatus.NotFilled).clearedState = false :=
  ⟨by decide, by decide,
   (close_unfilled_retains_state 1 [⟨1, 2⟩] [⟨1, 2⟩] ⟨1, 2⟩ (by decide)
      (by decide)).1,
   (close_unfilled_retains_state 1 [⟨1, 2⟩] [⟨1, 2⟩] ⟨1, 2⟩ (by decide)
      (by decide)).2.1⟩

/-- C7 (confirmed): when no broker position matches the contract (also the
situation of a second call after a successful close), `close_position`
places no order, returns `True`, calls `clear_trade_state`, sends no email
at all, and its only notification is the informational log record
"Position no longer found. Assuming it was closed." — nothing alarming. -/
theorem close_no_matching_position_succeeds (conId : Int)
    (pStart pEnd : List BrokerPosition)
    (hnone : pStart.find? (fun p => p.conId == conId) = none)
    (hgone : pEnd.any (fun p => p.conId == conId && p.position != 0) = false) :
    (close_position true conId pStart pEnd OrderStatus.Filled).orderPlaced
        = none
    ∧ (close_position true conId pStart pEnd OrderStatus.Filled).returns = true
    ∧ (close_position true conId pStart pEnd OrderStatus.Filled).clearedState
        = true
    ∧ (close_position true conId pStart pEnd OrderStatus.Filled).emails = []
    ∧ (close_position true conId pStart pEnd OrderStatus.Filled).logs
        = [CloseLog.infoAssumedClosed] := by
  simp [close_position, hnone, hgone]

/-- Witness for `close_no_matching_position_succeeds` with an empty broker
position list. -/
theorem close_no_matching_position_succeeds_witness :
    (([] : List BrokerPosition).find? (fun p => p.conId == 1) = none)
    ∧ (close_position true 1 [] [] OrderStatus.Filled).orderPlaced = none
    ∧ (close_position true 1 [] [] OrderStatus.Filled).returns = true
    ∧ (close_position true 1 [] [] OrderStatus.Filled).clearedState = true :=
  ⟨rfl,
   (close_no_matching_position_succeeds 1 [] [] rfl rfl).1,
   (close_no_matching_position_succeeds 1 [] [] rfl rfl).2.1,
   (close_no_matching_position_succeeds 1 [] [] rfl rfl).2.2.1⟩

/-- C8 (confirmed): the recovery branch of the main loop, on a persisted
open position whose contract fails `ib.qualifyContracts`, sends the
critical "Bot Recovery Failure" email, calls `clear_trade_state`, and
performs zero `monitor_position_with_trailing` invocations in that cycle,
for either persisted regime. -/
theorem recovery_unresolvable_contract_clears_state (regime : Regime) :
    (recoveryStep regime false).criticalAlertSent = true
    ∧ (recoveryStep regime false).stateCleared = true
    ∧ (recoveryStep regime false).monitorInvocations = 0 := by
  simp [recoveryStep]

/-- C9 (confirmed): `load_trade_state` returns the sentinel flat state
(`is_position_open = false`) when the state file is absent, when reading
raises `IOError`, and when the content fails JSON decoding; all three
failure modes are handled (the function is total on them), so no exception
reaches the caller in those cases. -/
theorem load_failure_returns_flat :
    load_trade_state FileState.missing = LoadResult.flat
    ∧ load_trade_state FileState.ioError = LoadResult.flat
    ∧ load_trade_state FileState.badJson = LoadResult.flat
    ∧ LoadResult.isOpen LoadResult.flat = false :=
  ⟨rfl, rfl, rfl, rfl⟩

/-- C10 (confirmed): for a decoded record with `is_position_open = true`,
`load_trade_state` returns the record with `breakeven_activated` defaulted
to `false` when absent, `profit_lock_activated` defaulted to `false` when
absent, and `active_regime` defaulted to `"TREND"` when absent, leaving
the other fields unchanged. -/
theorem load_backcompat_defaults (s : StoredState)
    (hopen : s.is_position_open = true) :
    ∃ s', load_trade_state (FileState.content s) = LoadResult.record s'
      ∧ (s.breakeven_activated = none → s'.breakeven_activated = some false)
      ∧ (s.profit_lock_activated = none → s'.profit_lock_activated = some false)
      ∧ (s.active_regime = none → s'.active_regime = some "TREND")
      ∧ s'.is_position_open = true
      ∧ s'.entry_price = s.entry_price
      ∧ s'.highest_price = s.highest_price
      ∧ s'.trailing_percent = s.trailing_percent
      ∧ s'.quantity = s.quantity
      ∧ s'.contract = s.contract := by
  refine ⟨{ s with
      breakeven_activated := some (s.breakeven_activated.getD false)
      profit_lock_activated := some (s.profit_lock_activated.getD false)
      active_regime := some (s.active_regime.getD "TREND") },
    ?_, ?_, ?_, ?_, hopen, rfl, rfl, rfl, rfl, rfl⟩
  · simp [load_trade_state, hopen]
  · intro h; simp [h]
  · intro h; simp [h]
  · intro h; simp [h]

/-- Witness for `load_backcompat_defaults` on `legacyStoredState`, a record
lacking all three optional fields. -/
theorem load_backcompat_defaults_witness :
    legacyStoredState.is_position_open = true
    ∧ ∃ s', load_trade_state (FileState.content legacyStoredState)
        = LoadResult.record s'
      ∧ s'.breakeven_activated = some false
      ∧ s'.profit_lock_activated = some false
      ∧ s'.active_regime = some "TREND" := by
  refine ⟨rfl, ?_⟩
  obtain ⟨s', h1, h2, h3, h4, _⟩ := load_backcompat_defaults legacyStoredState rfl
  exact ⟨s', h1, h2 rfl, h3 rfl, h4 rfl⟩

end Steve
